import Mathlib

/-!
Verification development for the tap-rest-api-msdk repository.

The definitions below are a shallow embedding of the Python source:
`utils.py` (flatten_json, unnest_dict), `pagination.py`
(RestAPIOffsetPaginator.has_more), `auth.py` (select_authenticator,
ConfigurableOAuthAuthenticator.oauth_request_body), `streams.py`
(DynamicStream.__init__ jsonpath defaulting, get_new_paginator,
backoff_wait_generator) and `tap.py` (get_schema sampling loop).
JSON values are an inductive type; Python dicts are association lists with
insertion-order overwrite semantics; Python exceptions are an error type
threaded through `Except`.
-/

/-- JSON values as the tap handles them (Python dicts / lists / scalars).
Numbers are modelled as integers (the claims only involve integers). -/
inductive Json where
  | null : Json
  | bool (b : Bool) : Json
  | num (n : Int) : Json
  | str (s : String) : Json
  | arr (elems : List Json) : Json
  | obj (fields : List (String × Json)) : Json

/-- Python runtime errors relevant to the embedded code paths. -/
inductive PyErr where
  | typeError : PyErr
  | attributeError : PyErr
  | valueError (msg : String) : PyErr
  | unboundLocalError (name : String) : PyErr
deriving DecidableEq

/-- Lookup `d[k]` in a Python dict modelled as an association list whose keys
are unique (first match). -/
def pyLookup {α : Type} (d : List (String × α)) (k : String) : Option α :=
  match d with
  | [] => none
  | (k', v) :: rest => if k' = k then some v else pyLookup rest k

/-- The keys of a Python dict, in insertion order. -/
def keys {α : Type} (d : List (String × α)) : List String :=
  d.map Prod.fst

/-- Assignment `d[k] = v` on a Python dict: overwrite in place if the key exists,
append otherwise (insertion order is preserved). -/
def pyIns {α : Type} (d : List (String × α)) (k : String) (v : α) : List (String × α) :=
  if d.any (fun kv => decide (kv.1 = k)) then
    d.map (fun kv => if kv.1 = k then (k, v) else kv)
  else
    d ++ [(k, v)]

/-- Replay a sequence of dict assignments (in execution order) into a dict. -/
def buildDict {α : Type} (assigns : List (String × α)) : List (String × α) :=
  assigns.foldl (fun d kv => pyIns d kv.1 kv.2) []

/-- Python `result.update(e)` on dicts. -/
def dictUpdate {α : Type} (d e : List (String × α)) : List (String × α) :=
  e.foldl (fun d kv => pyIns d kv.1 kv.2) d

/-- Python truthiness of a JSON value. -/
def pyTruthy : Json → Bool
  | .null => false
  | .bool b => b
  | .num n => decide (n ≠ 0)
  | .str s => decide (s ≠ "")
  | .arr xs => !xs.isEmpty
  | .obj kvs => !kvs.isEmpty

/-- Truthiness of an optional string config entry (Python `None` and `""` are falsy). -/
def truthyOS (o : Option String) : Bool :=
  match o with
  | none => false
  | some s => decide (s ≠ "")

/-- Truthiness of an optional list/dict config entry (Python `None`, `{}`, `[]` are falsy). -/
def truthyOL {α : Type} (o : Option (List α)) : Bool :=
  match o with
  | none => false
  | some l => !l.isEmpty

/-- Whether `o` is a Python dict (`type(o) is dict`). -/
def Json.isObjB : Json → Bool
  | .obj _ => true
  | _ => false

/-- Whether `o` is a Python list (`type(o) is list`). -/
def Json.isArrB : Json → Bool
  | .arr _ => true
  | _ => false

/-- Python `+` restricted to the value shapes the tap meets: numbers add,
strings concatenate, anything else is a TypeError. -/
def pyAdd : Json → Json → Except PyErr Json
  | .num a, .num b => .ok (.num (a + b))
  | .str a, .str b => .ok (.str (a ++ b))
  | _, _ => .error .typeError

/-- Python `<=` restricted likewise: numeric order, lexicographic string
order, TypeError otherwise. -/
def pyLe : Json → Json → Except PyErr Bool
  | .num a, .num b => .ok (decide (a ≤ b))
  | .str a, .str b => .ok (decide (a ≤ b))
  | _, _ => .error .typeError

/- ### utils.py: json.dumps model and flatten_json -/

/-- Decimal digit to character. -/
def digitChar : Nat → Char
  | 0 => '0' | 1 => '1' | 2 => '2' | 3 => '3' | 4 => '4'
  | 5 => '5' | 6 => '6' | 7 => '7' | 8 => '8' | _ => '9'

/-- Fuelled decimal printer (fuel keeps the recursion structural so that the
kernel can evaluate it). -/
def natToCharsAux : Nat → Nat → List Char
  | 0, _ => []
  | fuel + 1, n => if n < 10 then [digitChar n] else natToCharsAux fuel (n / 10) ++ [digitChar (n % 10)]

def natToString (n : Nat) : String :=
  String.mk (natToCharsAux (n + 1) n)

def intToString (n : Int) : String :=
  if n < 0 then "-" ++ natToString n.natAbs else natToString n.toNat

/-- JSON string escaping for the characters the repository's data can
contain (quote and backslash; Python additionally escapes control
characters, which never occur in the claims). -/
def escapeChar (c : Char) : List Char :=
  if c = '"' then ['\\', '"'] else if c = '\\' then ['\\', '\\'] else [c]

def jsonEscape (s : String) : String :=
  String.mk (s.data.foldr (fun c acc => escapeChar c ++ acc) [])

mutual
/-- Python `json.dumps` with the default separators (`", "` and `": "`). -/
def dumps : Json → String
  | .null => "null"
  | .bool true => "true"
  | .bool false => "false"
  | .num n => intToString n
  | .str s => "\"" ++ jsonEscape s ++ "\""
  | .arr xs => "[" ++ dumpsItems xs ++ "]"
  | .obj kvs => "\x7b" ++ dumpsFields kvs ++ "\x7d"

def dumpsItems : List Json → String
  | [] => ""
  | [x] => dumps x
  | x :: rest => dumps x ++ ", " ++ dumpsItems rest

def dumpsFields : List (String × Json) → String
  | [] => ""
  | [(k, v)] => "\"" ++ jsonEscape k ++ "\": " ++ dumps v
  | (k, v) :: rest => "\"" ++ jsonEscape k ++ "\": " ++ dumps v ++ ", " ++ dumpsFields rest
end

/-- The character translation `t` inside flatten_json: `-` and `.` become `_`. -/
def trChar (c : Char) : Char :=
  if c = '-' || c = '.' then '_' else c

/-- The `t(s)` translation of utils.flatten_json: translate a key to a db-friendly column name. -/
def pyT (s : String) : String :=
  String.mk (s.data.map trChar)

/-- Python `s[:-1]`. -/
def strDropLast (s : String) : String :=
  String.mk s.data.dropLast

mutual
/-- The inner `flatten` recursion of utils.flatten_json, recorded as the
sequence of assignments performed on the `out` dict, in execution order.
A dict recurses per key (serializing subtrees whose path is in
`except_keys`), a list is serialized under `t(name[:-1])`, and any other
value is stored raw under `t(name[:-1])`. -/
def flattenAssigns : Json → List String → String → List (String × Json)
  | .obj kvs, exceptKeys, name => flattenFieldsAssigns kvs exceptKeys name
  | .arr xs, _, name => [(pyT (strDropLast name), .str (dumps (.arr xs)))]
  | v, _, name => [(pyT (strDropLast name), v)]

def flattenFieldsAssigns : List (String × Json) → List String → String → List (String × Json)
  | [], _, _ => []
  | (k, v) :: rest, exceptKeys, name =>
      (if exceptKeys.contains (name ++ k) then [(pyT (name ++ k), .str (dumps v))]
       else flattenAssigns v exceptKeys (name ++ k ++ "_"))
      ++ flattenFieldsAssigns rest exceptKeys name
end

/-- utils.flatten_json: replay the assignment sequence into the `out` dict;
optionally store the raw record under `_sdc_raw_json`. -/
def flatten_json (obj : Json) (except_keys : List String) (store_raw_json_message : Bool) :
    List (String × Json) :=
  let out := buildDict (flattenAssigns obj except_keys "")
  if store_raw_json_message then pyIns out "_sdc_raw_json" obj else out

mutual
/-- utils.unnest_dict body: fold over the items, recursing into dict values
(merging their unnested pairs with `result.update`) and assigning other
values at their own key. -/
def unnestAux : List (String × Json) → List (String × Json) → List (String × Json)
  | [], result => result
  | (k, v) :: rest, result => unnestAux rest (unnestStep k v result)

/-- One iteration of the unnest_dict loop body. -/
def unnestStep : String → Json → List (String × Json) → List (String × Json)
  | _, .obj sub, result => dictUpdate result (unnestAux sub [])
  | k, v, result => pyIns result k v
end

/-- utils.unnest_dict: flatten nested dicts to a single level. -/
def unnest_dict (kvs : List (String × Json)) : List (String × Json) :=
  unnestAux kvs []

mutual
/-- Number of scalar-or-array leaves of a JSON object tree (arrays count as
one leaf, as flatten_json serializes them whole). -/
def leafCount : Json → Nat
  | .obj kvs => leafCountFields kvs
  | _ => 1

def leafCountFields : List (String × Json) → Nat
  | [] => 0
  | (_, v) :: rest => leafCount v + leafCountFields rest
end

/- ### pagination.py: RestAPIOffsetPaginator.has_more -/

/-- Modelled from the spec: `extract_jsonpath` (external jsonpath library used
via singer-sdk helpers) restricted to the single-field `$.name` paths the tap
configures by default, composed with `next(..., None)` taking the first match. -/
def jsonpathFirst (path : String) (body : Json) : Option Json :=
  if path.data.take 2 = ['$', '.'] then
    match body with
    | .obj kvs => pyLookup kvs (String.mk (path.data.drop 2))
    | _ => none
  else none

/-- Python `response.json().get(key, None)` — AttributeError if the body is not a dict. -/
def bodyGet (body : Json) (key : String) : Except PyErr (Option Json) :=
  match body with
  | .obj kvs => .ok (pyLookup kvs key)
  | _ => .error .attributeError

/-- RestAPIOffsetPaginator.has_more lines 64-67: the pagination object is the
first match of the configured jsonpath when one is set, else the
`pagination` key of the response body. -/
def extractPagination (jsonpath : Option String) (body : Json) : Except PyErr (Option Json) :=
  if truthyOS jsonpath then .ok (jsonpathFirst (jsonpath.getD "") body)
  else bodyGet body "pagination"

/-- RestAPIOffsetPaginator.has_more: locate the pagination object, unnest it
if truthy (crashing on a truthy non-dict, as `.items()` would), and continue
iff it has both `offset` and `limit` and `offset + limit` is at most the
value of the configured total-limit field (default `0` when absent). -/
def offsetHasMore (jsonpath : Option String) (pagination_total_limit_param : String)
    (body : Json) : Except PyErr Bool :=
  match extractPagination jsonpath body with
  | .error e => .error e
  | .ok none => .ok false
  | .ok (some pag) =>
      if pyTruthy pag then
        match pag with
        | .obj kvs =>
            let u := unnest_dict kvs
            if !u.isEmpty && (keys u).contains "offset" && (keys u).contains "limit" then
              let record_limit := (pyLookup u pagination_total_limit_param).getD (.num 0)
              match pyAdd ((pyLookup u "offset").getD .null) ((pyLookup u "limit").getD .null) with
              | .error e => .error e
              | .ok records_read =>
                  match pyLe records_read record_limit with
                  | .error e => .error e
                  | .ok b => .ok b
            else .ok false
        | _ => .error .attributeError
      else .ok false

/- ### auth.py: select_authenticator and oauth_request_body -/

/-- The configuration slice read by auth.py (each entry `none` when the key
is absent from the resolved config). -/
structure AuthConfig where
  auth_method : Option String := none
  api_keys : Option (List (String × String)) := none
  headers : Option (List (String × String)) := none
  username : Option String := none
  password : Option String := none
  access_token_url : Option String := none
  scope : Option String := none
  oauth_expiration_secs : Option Int := none
  bearer_token : Option String := none
  aws_credentials : Option Json := none
  client_id : Option String := none
  client_secret : Option String := none
  refresh_token : Option String := none
  grant_type : Option String := none
  redirect_uri : Option String := none
  oauth_extras : Option (List (String × String)) := none

/-- The authenticator values select_authenticator can build. The `aws`
variant's signed-credential resolution happens in external boto3/AWS4Auth
code and is kept opaque. -/
inductive Authenticator where
  | apiKey (key value : String)
  | basic (username password : String)
  | oauth (auth_endpoint : String) (oauth_scopes : String)
      (default_expiration : Option Int) (oauth_headers : Option (List (String × String)))
  | bearer (token : String)
  | awsSigned
deriving DecidableEq

/-- auth.select_authenticator: dispatch on `auth_method`. The `api_key`
branch iterates the `api_keys` dict binding `key`/`value` and then uses them
after the loop: an empty or absent dict leaves them unbound
(UnboundLocalError), otherwise the last iterated pair wins. Any method
outside the known set (with `no_auth` returning None) raises ValueError. -/
def select_authenticator (c : AuthConfig) : Except PyErr (Option Authenticator) :=
  let auth_method := c.auth_method.getD ""
  let api_keys := c.api_keys.getD []
  let auth_headers := c.headers
  if auth_method = "api_key" then
    match api_keys.getLast? with
    | some kv => .ok (some (.apiKey kv.1 kv.2))
    | none => .error (.unboundLocalError "key")
  else if auth_method = "basic" then
    .ok (some (.basic (c.username.getD "") (c.password.getD "")))
  else if auth_method = "oauth" then
    .ok (some (.oauth (c.access_token_url.getD "") (c.scope.getD "")
      c.oauth_expiration_secs auth_headers))
  else if auth_method = "bearer_token" then
    .ok (some (.bearer (c.bearer_token.getD "")))
  else if auth_method = "aws" then
    .ok (some .awsSigned)
  else if auth_method ≠ "no_auth" then
    .error (.valueError ("Unknown authentication method " ++ auth_method ++
      ". Use api_key, basic, oauth, bearer_token, or aws."))
  else .ok none

/-- The `if cond: params[name] = val` step of oauth_request_body. -/
def addParamIf (cond : Bool) (p : List (String × String)) (name val : String) :
    List (String × String) :=
  if cond then pyIns p name val else p

/-- The "add parameters if they are set" tail of oauth_request_body: starting
from the grant_type entry, each truthy optional field is added in source
order, then every oauth_extras entry. -/
def oauth_params_dict (c : AuthConfig) (gt : String) : List (String × String) :=
  let p := pyIns [] "grant_type" gt
  let p := addParamIf (truthyOS c.scope) p "scope" (c.scope.getD "")
  let p := addParamIf (truthyOS c.client_id) p "client_id" (c.client_id.getD "")
  let p := addParamIf (truthyOS c.client_secret) p "client_secret" (c.client_secret.getD "")
  let p := addParamIf (truthyOS c.username) p "username" (c.username.getD "")
  let p := addParamIf (truthyOS c.password) p "password" (c.password.getD "")
  let p := addParamIf (truthyOS c.refresh_token) p "refresh_token" (c.refresh_token.getD "")
  let p := addParamIf (truthyOS c.redirect_uri) p "redirect_uri" (c.redirect_uri.getD "")
  if truthyOL c.oauth_extras then dictUpdate p (c.oauth_extras.getD []) else p

/-- ConfigurableOAuthAuthenticator.oauth_request_body: require a grant_type,
check the per-grant mandatory fields (raising ValueError when missing), then
assemble the parameter dict from every truthy optional field and every
oauth_extras entry. -/
def oauth_request_body (c : AuthConfig) : Except PyErr (List (String × String)) :=
  if truthyOS c.grant_type then
    let gt := c.grant_type.getD ""
    if gt = "client_credentials" && !(truthyOS c.client_id && truthyOS c.client_secret) then
      .error (.valueError ("Missing either client_id or client_secret for " ++
        "'client_credentials' grant_type."))
    else if gt = "password" && !(truthyOS c.username && truthyOS c.password) then
      .error (.valueError "Missing either username or password for 'password' grant_type.")
    else if gt = "refresh_token" && !truthyOS c.refresh_token then
      .error (.valueError "Missing either refresh_token for 'refresh_token' grant_type.")
    else
      .ok (oauth_params_dict c gt)
  else .error (.valueError "Missing grant type for OAuth Token.")

/- ### streams.py: jsonpath defaulting, paginator selection, backoff -/

/-- DynamicStream.__init__ lines 125-133: the stream's
`next_page_token_jsonpath` is the configured `next_page_token_path` when
truthy, else `$.next_page` for the `jsonpath_paginator`/`default` request
styles; other styles inherit the singer-sdk RESTStream class default `None`. -/
def dynamicStreamNextPageTokenJsonpath (next_page_token_path : Option String)
    (pagination_request_style : String) : Option String :=
  if truthyOS next_page_token_path then next_page_token_path
  else if pagination_request_style = "jsonpath_paginator" ||
          pagination_request_style = "default" then some "$.next_page"
  else none

/-- The paginator values DynamicStream.get_new_paginator can return; each
constructor carries the arguments the source passes to the corresponding
class. -/
inductive Paginator where
  | jsonPath (path : Option String)
  | simpleHeader (key : String)
  | headerLink
  | restHeaderLink (pagination_page_size : Option Int) (pagination_results_limit : Option Int)
      (replication_key : Option String)
  | offsetPaged (start_value : Int) (page_size : Option Int) (jsonpath : Option String)
      (pagination_total_limit_param : Option String)
  | hateoas
  | singlePage
  | pageNumber (jsonpath : Option String)
  | simpleOffset (start_value : Int) (page_size : Option Int)
deriving DecidableEq

/-- DynamicStream.get_new_paginator: dispatch on `pagination_request_style`;
unknown styles raise ValueError. -/
def get_new_paginator (pagination_request_style : String)
    (next_page_token_jsonpath : Option String) (pagination_page_size : Option Int)
    (pagination_results_limit : Option Int) (replication_key : Option String)
    (pagination_total_limit_param : Option String) (pagination_initial_offset : Int) :
    Except PyErr Paginator :=
  if pagination_request_style = "jsonpath_paginator" ||
     pagination_request_style = "default" then
    .ok (.jsonPath next_page_token_jsonpath)
  else if pagination_request_style = "simple_header_paginator" then
    if truthyOS next_page_token_jsonpath then .ok (.jsonPath next_page_token_jsonpath)
    else .ok (.simpleHeader "X-Next-Page")
  else if pagination_request_style = "header_link_paginator" then
    .ok .headerLink
  else if pagination_request_style = "restapi_header_link_paginator" then
    .ok (.restHeaderLink pagination_page_size pagination_results_limit replication_key)
  else if pagination_request_style = "style1" ||
          pagination_request_style = "offset_paginator" then
    .ok (.offsetPaged pagination_initial_offset pagination_page_size
      next_page_token_jsonpath pagination_total_limit_param)
  else if pagination_request_style = "hateoas_paginator" then
    .ok .hateoas
  else if pagination_request_style = "single_page_paginator" then
    .ok .singlePage
  else if pagination_request_style = "page_number_paginator" then
    .ok (.pageNumber next_page_token_jsonpath)
  else if pagination_request_style = "simple_offset_paginator" then
    .ok (.simpleOffset pagination_initial_offset pagination_page_size)
  else
    .error (.valueError ("Unknown paginator " ++ pagination_request_style ++
      ". Please declare a valid paginator."))

/-- Modelled from the spec: singer-sdk JSONPathPaginator.get_next (external
dependency) returns the first match of the configured jsonpath against the
response body, None when nothing matches. -/
def jsonPathPaginatorGetNext (path : Option String) (body : Json) : Option Json :=
  match path with
  | some p => jsonpathFirst p body
  | none => none

/-- Modelled from the spec: singer-sdk SimpleHeaderPaginator.get_next
(external dependency) returns `response.headers.get(key)`. -/
def simpleHeaderPaginatorGetNext (key : String) (headers : List (String × String)) :
    Option String :=
  pyLookup headers key

/-- Which generator DynamicStream.backoff_wait_generator returns. -/
inductive BackoffStyle where
  | runtimeMessage
  | runtimeHeader
  | sdkDefault
deriving DecidableEq

/-- DynamicStream.backoff_wait_generator: `message` and `header` backoff
types route to backoff_runtime with the corresponding wait function; any
other value (including no configuration) defers to the SDK default
generator unchanged. -/
def backoff_wait_generator (backoff_type : Option String) : BackoffStyle :=
  if backoff_type = some "message" then .runtimeMessage
  else if backoff_type = some "header" then .runtimeHeader
  else .sdkDefault

/-- Python `str.split()` (split on whitespace runs, no empty tokens). -/
def isWsChar (c : Char) : Bool :=
  c = ' ' || c = '\t' || c = '\n' || c = '\r' || c = '\x0b' || c = '\x0c'

def splitWsAux : List Char → List Char → List String
  | [], acc => if acc.isEmpty then [] else [String.mk acc.reverse]
  | c :: rest, acc =>
      if isWsChar c then
        if acc.isEmpty then splitWsAux rest []
        else String.mk acc.reverse :: splitWsAux rest []
      else splitWsAux rest (c :: acc)

def pySplit (s : String) : List String :=
  splitWsAux s.data []

/-- Python `str.isdigit` (ASCII digits; non-empty). -/
def pyIsDigit (s : String) : Bool :=
  !s.data.isEmpty && s.data.all (fun c => '0' ≤ c && c ≤ '9')

/-- Decimal value of a digit string. -/
def digitsToNat (l : List Char) : Nat :=
  l.foldl (fun n c => 10 * n + (c.toNat - '0'.toNat)) 0

/-- Python `int(s)` on the header strings the tap meets: an optional sign
followed by digits (whitespace padding not modelled). -/
def pyParseInt (s : String) : Option Int :=
  match s.data with
  | '-' :: rest => if !rest.isEmpty && rest.all (fun c => '0' ≤ c && c ≤ '9')
      then some (-(digitsToNat rest : Int)) else none
  | l => if !l.isEmpty && l.all (fun c => '0' ≤ c && c ≤ '9')
      then some (digitsToNat l : Int) else none

/-- The whitespace-delimited all-digit tokens of a message, as integers:
`[int(i) for i in response_message.split() if i.isdigit()]`. -/
def digitTokenInts (s : String) : List Int :=
  ((pySplit s).filter pyIsDigit).map (fun t => (digitsToNat t.data : Int))

/-- streams._get_wait_time_from_response: read the body's `message` field
(defaulting to the integer 0, whose `.split()` then crashes), collect the
whitespace-delimited digit tokens, and wait `max(tokens) +
backoff_time_extension` (max of an empty list raises ValueError). -/
def get_wait_time_from_response (body : Json) (backoff_time_extension : Int) :
    Except PyErr Int :=
  match body with
  | .obj kvs =>
      match (pyLookup kvs "message").getD (.num 0) with
      | .str s =>
          match digitTokenInts s with
          | [] => .error (.valueError "max() arg is an empty sequence")
          | h :: t => .ok (t.foldl max h + backoff_time_extension)
      | _ => .error .attributeError
  | _ => .error .attributeError

/-- streams._backoff_from_headers:
`int(response.headers.get(backoff_param, 0)) + backoff_time_extension`. -/
def backoff_from_headers (headers : List (String × String)) (backoff_param : String)
    (backoff_time_extension : Int) : Except PyErr Int :=
  match pyLookup headers backoff_param with
  | none => .ok (0 + backoff_time_extension)
  | some s =>
      match pyParseInt s with
      | some n => .ok (n + backoff_time_extension)
      | none => .error (.valueError "invalid literal for int() with base 10")

/- ### tap.py: get_schema sampling loop -/

/-- tap.get_schema record loop (lines 609-624): each record must be a dict
(else ValueError), is flattened and merged into the schema builder, and the
loop breaks after processing the record at index `i >= inference_records`.
The result lists the flattened records merged into the schema, in order. -/
def schemaSampleAux (except_keys : List String) (inference_records : Nat) :
    List Json → Nat → Except PyErr (List (List (String × Json)))
  | [], _ => .ok []
  | r :: rs, i =>
      if r.isObjB then
        let flat := flatten_json r except_keys false
        if i ≥ inference_records then .ok [flat]
        else
          match schemaSampleAux except_keys inference_records rs (i + 1) with
          | .ok l => .ok (flat :: l)
          | .error e => .error e
      else .error (.valueError "Input must be a dict object.")

/-- The flattened records sampled by tap.get_schema from the extracted
record collection. -/
def schemaSampleFlattened (records : List Json) (except_keys : List String)
    (inference_records : Nat) : Except PyErr (List (List (String × Json))) :=
  schemaSampleAux except_keys inference_records records 0

/- ### path helpers for the flattening claims -/

/-- Descend through object fields along a key path (first-match lookup,
matching Python dict access). -/
def getObjPath : Json → List String → Option Json
  | v, [] => some v
  | o, k :: p =>
      match o with
      | .obj kvs =>
          match pyLookup kvs k with
          | some v => getObjPath v p
          | none => none
      | _ => none

/-- The flattened column name of a key path: keys joined by `_`
(before the `-`/`.` character translation). -/
def pathName : List String → String
  | [] => ""
  | [k] => k
  | k :: p => k ++ "_" ++ pathName p

/-- No prefix of the path meets `except_keys` during the flatten traversal
started at prefix `name`. -/
def noExceptOnPath (exceptKeys : List String) (name : String) : List String → Bool
  | [] => true
  | k :: p => !(exceptKeys.contains (name ++ k)) && noExceptOnPath exceptKeys (name ++ k ++ "_") p

/-- The values assigned to key `k` during a flatten run, in order. -/
def keyAssigns (assigns : List (String × Json)) (k : String) : List Json :=
  (assigns.filter (fun kv => decide (kv.1 = k))).map Prod.snd

/- ### Helper lemmas -/

theorem strDropLast_append_underscore (s : String) : strDropLast (s ++ "_") = s := by
  apply String.ext
  show ((s ++ "_").data).dropLast = s.data
  have h : (s ++ "_").data = s.data ++ ['_'] := rfl
  rw [h]
  exact List.dropLast_concat

theorem string_nil_append (s : String) : "" ++ s = s :=
  String.ext rfl

theorem getLast?_cons_or {α : Type} (a : α) (l : List α) :
    (a :: l).getLast? = (l.getLast?).or (some a) := by
  cases l with
  | nil => rfl
  | cons b t =>
      rw [List.getLast?_cons_cons]
      have hs : ((b :: t).getLast?).isSome = true := List.getLast?_isSome.mpr (by simp)
      cases h : (b :: t).getLast? with
      | none => rw [h] at hs; simp at hs
      | some v => rfl

theorem lookup_map_replace {α : Type} (k : String) (v : α) :
    ∀ (d : List (String × α)), d.any (fun kv => decide (kv.1 = k)) = true →
    pyLookup (d.map (fun kv => if kv.1 = k then (k, v) else kv)) k = some v := by
  intro d
  induction d with
  | nil => simp
  | cons hd tl ih =>
      obtain ⟨a, b⟩ := hd
      intro hany
      by_cases hk : a = k
      · subst hk
        rw [List.map_cons, if_pos (show (a, b).1 = a from rfl)]
        show pyLookup ((a, v) :: _) a = some v
        simp [pyLookup]
      · have htl : tl.any (fun kv => decide (kv.1 = k)) = true := by
          simpa [hk] using hany
        have hhd : ((fun kv : String × α => if kv.1 = k then (k, v) else kv) (a, b)) = (a, b) := by
          simp [hk]
        simp only [List.map_cons, hhd]
        simpa [pyLookup, hk] using ih htl

theorem lookup_append_last {α : Type} (k : String) (v : α) :
    ∀ (d : List (String × α)), d.any (fun kv => decide (kv.1 = k)) = false →
    pyLookup (d ++ [(k, v)]) k = some v := by
  intro d
  induction d with
  | nil => simp [pyLookup]
  | cons hd tl ih =>
      obtain ⟨a, b⟩ := hd
      intro hany
      have ha : ¬ a = k := by
        intro he
        rw [List.any_cons] at hany
        simp [he] at hany
      have htl : tl.any (fun kv => decide (kv.1 = k)) = false := by
        rw [List.any_cons] at hany
        exact (Bool.or_eq_false_iff.mp hany).2
      simpa [pyLookup, ha] using ih htl

theorem pyLookup_pyIns_self {α : Type} (d : List (String × α)) (k : String) (v : α) :
    pyLookup (pyIns d k v) k = some v := by
  unfold pyIns
  by_cases h : d.any (fun kv => decide (kv.1 = k)) = true
  · rw [if_pos h]
    exact lookup_map_replace k v d h
  · rw [if_neg h]
    exact lookup_append_last k v d (Bool.eq_false_iff.mpr h)

theorem lookup_map_replace_ne {α : Type} (k : String) (v : α) (k' : String) (h : k' ≠ k) :
    ∀ (d : List (String × α)),
    pyLookup (d.map (fun kv => if kv.1 = k then (k, v) else kv)) k' = pyLookup d k' := by
  intro d
  induction d with
  | nil => rfl
  | cons hd tl ih =>
      obtain ⟨a, b⟩ := hd
      by_cases hk : a = k
      · subst hk
        have hhd : ((fun kv : String × α => if kv.1 = a then (a, v) else kv) (a, b)) = (a, v) := by
          simp
        have hne : ¬ a = k' := fun he => h (he.symm)
        simp only [List.map_cons, hhd]
        simpa [pyLookup, hne] using ih
      · have hhd : ((fun kv : String × α => if kv.1 = k then (k, v) else kv) (a, b)) = (a, b) := by
          simp [hk]
        simp only [List.map_cons, hhd]
        by_cases ha : a = k'
        · simp [pyLookup, ha]
        · simpa [pyLookup, ha] using ih

theorem lookup_append_ne {α : Type} (k : String) (v : α) (k' : String) (h : k' ≠ k) :
    ∀ (d : List (String × α)), pyLookup (d ++ [(k, v)]) k' = pyLookup d k' := by
  intro d
  induction d with
  | nil =>
      have hne : ¬ k = k' := fun he => h he.symm
      simp [pyLookup, hne]
  | cons hd tl ih =>
      obtain ⟨a, b⟩ := hd
      by_cases ha : a = k'
      · simp [pyLookup, ha]
      · simpa [pyLookup, ha] using ih

theorem pyLookup_pyIns_ne {α : Type} (d : List (String × α)) (k : String) (v : α)
    (k' : String) (h : k' ≠ k) : pyLookup (pyIns d k v) k' = pyLookup d k' := by
  unfold pyIns
  by_cases hany : d.any (fun kv => decide (kv.1 = k)) = true
  · rw [if_pos hany]
    exact lookup_map_replace_ne k v k' h d
  · rw [if_neg hany]
    exact lookup_append_ne k v k' h d

theorem keys_map_replace {α : Type} (k : String) (v : α) (d : List (String × α)) :
    keys (d.map (fun kv => if kv.1 = k then (k, v) else kv)) = keys d := by
  unfold keys
  rw [List.map_map]
  apply List.map_congr_left
  intro kv _
  by_cases hk : kv.1 = k
  · simp [hk]
  · simp [hk]

theorem mem_keys_pyIns {α : Type} (d : List (String × α)) (k : String) (v : α)
    (k' : String) : k' ∈ keys (pyIns d k v) ↔ k' = k ∨ k' ∈ keys d := by
  unfold pyIns
  by_cases hany : d.any (fun kv => decide (kv.1 = k)) = true
  · rw [if_pos hany, keys_map_replace]
    constructor
    · exact Or.inr
    · rintro (rfl | hm)
      · obtain ⟨kv, hkv, hd⟩ := List.any_eq_true.mp hany
        simp only [decide_eq_true_eq] at hd
        exact hd ▸ List.mem_map.mpr ⟨kv, hkv, rfl⟩
      · exact hm
  · rw [if_neg hany]
    unfold keys
    simp [or_comm]

theorem mem_keys_dictUpdate {α : Type} (e : List (String × α)) :
    ∀ (d : List (String × α)) (k : String),
    k ∈ keys (dictUpdate d e) ↔ k ∈ keys d ∨ (∃ v, (k, v) ∈ e) := by
  induction e with
  | nil => simp [dictUpdate, keys]
  | cons hd tl ih =>
      intro d k
      have step : dictUpdate d (hd :: tl) = dictUpdate (pyIns d hd.1 hd.2) tl := rfl
      rw [step, ih, mem_keys_pyIns]
      constructor
      · rintro ((rfl | hm) | hm)
        · exact Or.inr ⟨hd.2, by simp⟩
        · exact Or.inl hm
        · obtain ⟨v, hv⟩ := hm
          exact Or.inr ⟨v, List.mem_cons_of_mem _ hv⟩
      · rintro (hm | ⟨v, hv⟩)
        · exact Or.inl (Or.inr hm)
        · rcases List.mem_cons.mp hv with he | hm
          · exact Or.inl (Or.inl (congrArg Prod.fst he))
          · exact Or.inr ⟨v, hm⟩

theorem mem_keys_addParamIf (b : Bool) (p : List (String × String)) (n val k : String) :
    k ∈ keys (addParamIf b p n val) ↔ (b = true ∧ k = n) ∨ k ∈ keys p := by
  cases b
  · simp [addParamIf]
  · simp [addParamIf, mem_keys_pyIns]

theorem keyAssigns_nil (k : String) : keyAssigns ([] : List (String × Json)) k = [] := rfl

theorem keyAssigns_cons (kv : String × Json) (as : List (String × Json)) (k : String) :
    keyAssigns (kv :: as) k =
      if kv.1 = k then kv.2 :: keyAssigns as k else keyAssigns as k := by
  by_cases h : kv.1 = k
  · simp [keyAssigns, h]
  · simp [keyAssigns, h]

theorem pyLookup_foldl_pyIns (as : List (String × Json)) :
    ∀ (d : List (String × Json)) (k : String),
    pyLookup (as.foldl (fun d kv => pyIns d kv.1 kv.2) d) k =
      ((keyAssigns as k).getLast?).or (pyLookup d k) := by
  induction as with
  | nil => simp [keyAssigns]
  | cons hd tl ih =>
      intro d k
      have step : (hd :: tl).foldl (fun d kv => pyIns d kv.1 kv.2) d =
          tl.foldl (fun d kv => pyIns d kv.1 kv.2) (pyIns d hd.1 hd.2) := rfl
      rw [step, ih, keyAssigns_cons]
      by_cases hk : hd.1 = k
      · subst hk
        rw [if_pos rfl, getLast?_cons_or, Option.or_assoc, pyLookup_pyIns_self]
        rfl
      · rw [if_neg hk, pyLookup_pyIns_ne d hd.1 hd.2 k (fun he => hk he.symm)]

theorem pyLookup_buildDict (as : List (String × Json)) (k : String) :
    pyLookup (buildDict as) k = (keyAssigns as k).getLast? := by
  unfold buildDict
  rw [pyLookup_foldl_pyIns]
  simp [pyLookup]

theorem foldl_max_mem : ∀ (t : List Int) (h : Int), t.foldl max h ∈ h :: t := by
  intro t
  induction t with
  | nil => intro h; simp
  | cons a t ih =>
      intro h
      have hm := ih (max h a)
      rcases max_choice h a with hc | hc
      · rcases List.mem_cons.mp hm with he | hmem
        · exact List.mem_cons.mpr (Or.inl (by rw [List.foldl_cons, he, hc]))
        · exact List.mem_cons.mpr (Or.inr (List.mem_cons.mpr (Or.inr (by
            rw [List.foldl_cons]; exact hmem))))
      · rcases List.mem_cons.mp hm with he | hmem
        · refine List.mem_cons.mpr (Or.inr (List.mem_cons.mpr (Or.inl ?_)))
          rw [List.foldl_cons, he, hc]
        · exact List.mem_cons.mpr (Or.inr (List.mem_cons.mpr (Or.inr (by
            rw [List.foldl_cons]; exact hmem))))

theorem le_foldl_max_init : ∀ (t : List Int) (h : Int), h ≤ t.foldl max h := by
  intro t
  induction t with
  | nil => intro h; simp
  | cons a t ih =>
      intro h
      calc h ≤ max h a := le_max_left h a
        _ ≤ (a :: t).foldl max h := by rw [List.foldl_cons]; exact ih (max h a)

theorem foldl_max_le : ∀ (t : List Int) (h x : Int), x ∈ h :: t → x ≤ t.foldl max h := by
  intro t
  induction t with
  | nil =>
      intro h x hx
      rcases List.mem_cons.mp hx with he | hmem
      · simp [he]
      · simp at hmem
  | cons a t ih =>
      intro h x hx
      rw [List.foldl_cons]
      rcases List.mem_cons.mp hx with he | hmem
      · subst he
        calc x ≤ max x a := le_max_left x a
          _ ≤ t.foldl max (max x a) := le_foldl_max_init t _
      · rcases List.mem_cons.mp hmem with he | hmem
        · subst he
          calc x ≤ max h x := le_max_right h x
            _ ≤ t.foldl max (max h x) := le_foldl_max_init t _
        · exact ih (max h a) x (List.mem_cons.mpr (Or.inr hmem))

theorem mem_flattenFields_of_lookup (ek : List String) (k : String) (v : Json)
    (name : String) (x : String × Json) :
    ∀ (kvs : List (String × Json)), pyLookup kvs k = some v →
    ek.contains (name ++ k) = false →
    x ∈ flattenAssigns v ek (name ++ k ++ "_") → x ∈ flattenFieldsAssigns kvs ek name := by
  intro kvs
  induction kvs with
  | nil => intro hl; simp [pyLookup] at hl
  | cons hd tl ih =>
      obtain ⟨a, b⟩ := hd
      intro hl hek hx
      by_cases ha : a = k
      · subst ha
        rw [pyLookup] at hl
        rw [if_pos rfl] at hl
        injection hl with hv
        subst hv
        show x ∈ (if ek.contains (name ++ a) = true then _ else flattenAssigns b ek (name ++ a ++ "_")) ++ _
        rw [if_neg (by rw [hek]; simp)]
        exact List.mem_append_left _ hx
      · rw [pyLookup, if_neg ha] at hl
        show x ∈ (if ek.contains (name ++ a) = true then _ else _) ++ flattenFieldsAssigns tl ek name
        exact List.mem_append_right _ (ih hl hek hx)

theorem flattenAssigns_array_mem (ek : List String) (xs : List Json) :
    ∀ (p : List String) (o : Json) (name : String), p ≠ [] →
    getObjPath o p = some (.arr xs) → noExceptOnPath ek name p = true →
    (pyT (name ++ pathName p), Json.str (dumps (.arr xs))) ∈ flattenAssigns o ek name := by
  intro p
  induction p with
  | nil => intro o name hne; exact absurd rfl hne
  | cons k rest ih =>
      intro o name _ hpath hex
      cases o with
      | obj kvs =>
          have hpath1 : (match pyLookup kvs k with
              | some v => getObjPath v rest
              | none => none) = some (Json.arr xs) := hpath
          cases hl : pyLookup kvs k with
          | none => rw [hl] at hpath1; exact Option.noConfusion hpath1
          | some v =>
              rw [hl] at hpath1
              have hpath : getObjPath v rest = some (Json.arr xs) := hpath1
              rw [noExceptOnPath] at hex
              have hek : ek.contains (name ++ k) = false := by
                by_cases hc : ek.contains (name ++ k) = true
                · rw [hc] at hex; simp at hex
                · exact Bool.eq_false_iff.mpr hc
              have hrest : noExceptOnPath ek (name ++ k ++ "_") rest = true := by
                rw [hek] at hex
                simpa using hex
              cases rest with
              | nil =>
                  have hpath2 : some v = some (Json.arr xs) := hpath
                  have hv : v = Json.arr xs := Option.some.inj hpath2
                  subst hv
                  have hkey : strDropLast (name ++ k ++ "_") = name ++ k :=
                    strDropLast_append_underscore (name ++ k)
                  have hmem : (pyT (name ++ k), Json.str (dumps (.arr xs)))
                      ∈ flattenAssigns (.arr xs) ek (name ++ k ++ "_") := by
                    rw [flattenAssigns, hkey]
                    simp
                  have hlift := mem_flattenFields_of_lookup ek k (.arr xs) name _ kvs hl hek hmem
                  simpa [pathName, flattenAssigns] using hlift
              | cons k2 rest2 =>
                  have hmem := ih v (name ++ k ++ "_") (by simp) hpath hrest
                  have hkeyeq : (name ++ k ++ "_") ++ pathName (k2 :: rest2)
                      = name ++ pathName (k :: k2 :: rest2) := by
                    show (name ++ k ++ "_") ++ pathName (k2 :: rest2)
                        = name ++ (k ++ "_" ++ pathName (k2 :: rest2))
                    simp [String.append_assoc]
                  rw [hkeyeq] at hmem
                  have hlift := mem_flattenFields_of_lookup ek k v name _ kvs hl hek hmem
                  simpa [flattenAssigns] using hlift
      | null => exact Option.noConfusion hpath
      | bool b => exact Option.noConfusion hpath
      | num n => exact Option.noConfusion hpath
      | str s => exact Option.noConfusion hpath
      | arr ys => exact Option.noConfusion hpath

theorem lookup_buildDict_of_unique (as : List (String × Json)) (k : String) (v : Json)
    (hmem : (k, v) ∈ as) (hcount : (keyAssigns as k).length = 1) :
    pyLookup (buildDict as) k = some v := by
  have hvm : v ∈ keyAssigns as k := by
    unfold keyAssigns
    exact List.mem_map.mpr ⟨(k, v), List.mem_filter.mpr ⟨hmem, by simp⟩, rfl⟩
  obtain ⟨a, ha⟩ := List.length_eq_one.mp hcount
  rw [ha] at hvm
  rcases List.mem_singleton.mp hvm with rfl
  rw [pyLookup_buildDict, ha]
  rfl

theorem mem_keys_of_pyLookup {α : Type} (k : String) (v : α) :
    ∀ (d : List (String × α)), pyLookup d k = some v → k ∈ keys d := by
  intro d
  induction d with
  | nil => intro h; simp [pyLookup] at h
  | cons hd tl ih =>
      obtain ⟨a, b⟩ := hd
      intro h
      by_cases ha : a = k
      · subst ha; simp [keys]
      · rw [pyLookup, if_neg ha] at h
        exact List.mem_cons_of_mem _ (ih h)

theorem not_mem_keys_of_pyLookup_none {α : Type} (k : String) :
    ∀ (d : List (String × α)), pyLookup d k = none → k ∉ keys d := by
  intro d
  induction d with
  | nil => intro _; simp [keys]
  | cons hd tl ih =>
      obtain ⟨a, b⟩ := hd
      intro h
      by_cases ha : a = k
      · subst ha; rw [pyLookup, if_pos rfl] at h; exact Option.noConfusion h
      · rw [pyLookup, if_neg ha] at h
        simp only [keys, List.map_cons, List.mem_cons]
        rintro (he | hm)
        · exact ha he.symm
        · exact ih h hm

theorem truthyOS_eq_isSome (o : Option String) (h : ∀ s, o = some s → s ≠ "") :
    truthyOS o = o.isSome := by
  cases o with
  | none => rfl
  | some s => simp [truthyOS, h s rfl]

theorem truthyOL_eq_isSome {α : Type} (o : Option (List α)) (h : ∀ l, o = some l → l ≠ []) :
    truthyOL o = o.isSome := by
  cases o with
  | none => rfl
  | some l => simp [truthyOL, List.isEmpty_eq_false.mpr (h l rfl)]

/- ### The claims -/

/-- Claim C5: every configured auth_method value outside the supported set
(api_key, basic, oauth, bearer_token, aws, no_auth) makes select_authenticator
raise a ValueError whose message names the allowed methods; no authenticator
is built, so no HTTP request can be issued with it. -/
theorem claim_C5_unknown_auth_method (c : AuthConfig) (m : String)
    (hm : c.auth_method = some m)
    (hset : m ∉ ["api_key", "basic", "oauth", "bearer_token", "aws", "no_auth"]) :
    select_authenticator c = .error (.valueError ("Unknown authentication method " ++ m ++
      ". Use api_key, basic, oauth, bearer_token, or aws.")) := by
  simp only [List.mem_cons, not_or] at hset
  obtain ⟨h1, h2, h3, h4, h5, h6, -⟩ := hset
  simp [select_authenticator, hm, h1, h2, h3, h4, h5, h6]

theorem claim_C5_witness :
    select_authenticator { auth_method := some "bogus" } = .error (.valueError
      "Unknown authentication method bogus. Use api_key, basic, oauth, bearer_token, or aws.") :=
  claim_C5_unknown_auth_method _ "bogus" rfl (by decide)

/-- Claim C10: with auth_method api_key, an empty or absent api_keys mapping
makes select_authenticator crash with an unbound-local error (the loop that
would bind key/value never runs), instead of the descriptive ValueError; and
with several entries only the last iterated key/value pair reaches the
returned APIKeyAuthenticator. -/
theorem claim_C10_api_key_selection :
    (∀ c : AuthConfig, c.auth_method = some "api_key" → c.api_keys.getD [] = [] →
      select_authenticator c = .error (.unboundLocalError "key"))
    ∧ (∀ (c : AuthConfig) (ks : List (String × String)) (k v : String),
      c.auth_method = some "api_key" → c.api_keys = some ks → ks.getLast? = some (k, v) →
      select_authenticator c = .ok (some (.apiKey k v))) := by
  constructor
  · intro c hm hk
    simp [select_authenticator, hm, hk]
  · intro c ks k v hm hks hlast
    simp [select_authenticator, hm, hks, hlast]

theorem claim_C10_witness :
    select_authenticator { auth_method := some "api_key" } = .error (.unboundLocalError "key")
    ∧ select_authenticator
        { auth_method := some "api_key", api_keys := some [("A", "1"), ("B", "2")] }
      = .ok (some (.apiKey "B" "2")) :=
  ⟨claim_C10_api_key_selection.1 _ rfl rfl,
   claim_C10_api_key_selection.2 _ [("A", "1"), ("B", "2")] "B" "2" rfl rfl rfl⟩

/-- Claim C7 (code bug): with num_inference_records = 1 and three records
available, get_schema flattens and merges 2 records before stopping: the
break `if i >= inference_records` only fires after the record at index N has
already been processed, so N+1 records are sampled instead of exactly N. -/
theorem claim_C7_inference_off_by_one :
    (schemaSampleFlattened [.obj [("a", .num 1)], .obj [("a", .num 2)], .obj [("a", .num 3)]]
      [] 1).map List.length = .ok 2 := rfl

/-- Claim C3 counterexample: flatten_json applied to a non-object top-level
value does not raise any error; a list input yields the single-field record
mapping the empty key to the serialized list, and a number input yields the
raw number under the empty key. -/
theorem claim_C3_counterexample :
    flatten_json (.arr [.num 4, .num 5]) [] false = [("", .str "[4, 5]")]
    ∧ flatten_json (.num 7) [] false = [("", .num 7)] := ⟨rfl, rfl⟩

/-- Claim C3 (amended): the hard error for non-object records lives in
tap.get_schema, whose sampling loop raises ValueError "Input must be a dict
object." as soon as it meets a non-dict record; flatten_json itself accepts
any top-level value, returning one record keyed by the empty string (lists
serialized to JSON strings, other non-objects stored raw). -/
theorem claim_C3_non_object_records :
    (∀ (r : Json) (rs : List Json) (i n : Nat) (ek : List String), r.isObjB = false →
      schemaSampleAux ek n (r :: rs) i = .error (.valueError "Input must be a dict object."))
    ∧ (∀ (xs : List Json) (ek : List String),
      flatten_json (.arr xs) ek false = [("", .str (dumps (.arr xs)))])
    ∧ (∀ (v : Json) (ek : List String), v.isObjB = false → v.isArrB = false →
      flatten_json v ek false = [("", v)]) := by
  refine ⟨?_, ?_, ?_⟩
  · intro r rs i n ek hr
    simp [schemaSampleAux, hr]
  · intro xs ek
    rfl
  · intro v ek h1 h2
    cases v with
    | null => rfl
    | bool b => rfl
    | num n => rfl
    | str s => rfl
    | arr ys => simp [Json.isArrB] at h2
    | obj kvs => simp [Json.isObjB] at h1

theorem claim_C3_witness :
    schemaSampleAux [] 50 [.arr [.num 4]] 0 = .error (.valueError "Input must be a dict object.")
    ∧ flatten_json (.str "x") [] false = [("", .str "x")] :=
  ⟨claim_C3_non_object_records.1 (.arr [.num 4]) [] 0 50 [] rfl,
   claim_C3_non_object_records.2.2 (.str "x") [] rfl rfl⟩

/-- Claim C9: flatten_json is not injective on field paths. The nested leaf
a -> b and the top-level key a_b flatten to the same column a_b; two keys
differing only in the translated characters (a.b vs a_b) also collide. In
both cases the final record holds only the value assigned last in traversal
order and has fewer entries than the input has leaves; in general, the
value of any flattened column is the last assignment made to it. -/
theorem claim_C9_flatten_key_collisions :
    (pyLookup (flatten_json (.obj [("a", .obj [("b", .num 1)]), ("a_b", .num 2)]) [] false) "a_b"
        = some (.num 2)
      ∧ (flatten_json (.obj [("a", .obj [("b", .num 1)]), ("a_b", .num 2)]) [] false).length = 1
      ∧ leafCount (.obj [("a", .obj [("b", .num 1)]), ("a_b", .num 2)]) = 2)
    ∧ (pyLookup (flatten_json (.obj [("a.b", .num 1), ("a_b", .num 2)]) [] false) "a_b"
        = some (.num 2)
      ∧ (flatten_json (.obj [("a.b", .num 1), ("a_b", .num 2)]) [] false).length = 1
      ∧ leafCount (.obj [("a.b", .num 1), ("a_b", .num 2)]) = 2)
    ∧ (∀ (o : Json) (ek : List String) (k : String),
      pyLookup (flatten_json o ek false) k = (keyAssigns (flattenAssigns o ek "") k).getLast?) := by
  refine ⟨⟨rfl, rfl, rfl⟩, ⟨rfl, rfl, rfl⟩, ?_⟩
  intro o ek k
  show pyLookup (buildDict (flattenAssigns o ek "")) k = _
  exact pyLookup_buildDict _ _

/-- Claim C4 counterexample: under the default pagination style with no
configured token path, DynamicStream installs the jsonpath $.next_page and
get_new_paginator builds a JSONPathPaginator from it; on a response whose
body lacks next_page (carrying only the X-Next-Page header), that paginator
yields no token - the claimed header fallback does not exist for this style. -/
theorem claim_C4_counterexample :
    dynamicStreamNextPageTokenJsonpath none "default" = some "$.next_page"
    ∧ get_new_paginator "default" (some "$.next_page") none none none none 1
      = .ok (.jsonPath (some "$.next_page"))
    ∧ jsonPathPaginatorGetNext (some "$.next_page") (.obj []) = none := ⟨rfl, rfl, rfl⟩

/-- Claim C4 (amended): the default/jsonpath style always extracts the next
token via the configured JSON path, defaulting to $.next_page, and never
consults response headers; the X-Next-Page header fallback belongs to the
simple_header_paginator style when no jsonpath is configured. Body
next_page: tok123 yields tok123 under the default style; header
X-Next-Page: hdrtok yields hdrtok under simple_header_paginator; each
source yields nothing when absent. -/
theorem claim_C4_default_and_header_paginators :
    (∀ ntp : Option String, truthyOS ntp = false →
      dynamicStreamNextPageTokenJsonpath ntp "default" = some "$.next_page"
      ∧ dynamicStreamNextPageTokenJsonpath ntp "jsonpath_paginator" = some "$.next_page")
    ∧ (∀ (jp : Option String) (ps rl : Option Int) (rk : Option String) (tp : Option String)
        (io : Int), get_new_paginator "default" jp ps rl rk tp io = .ok (.jsonPath jp))
    ∧ jsonPathPaginatorGetNext (some "$.next_page") (.obj [("next_page", .str "tok123")])
      = some (.str "tok123")
    ∧ (∀ (ntp : Option String) (ps rl : Option Int) (rk : Option String) (tp : Option String)
        (io : Int), truthyOS ntp = false →
      get_new_paginator "simple_header_paginator" ntp ps rl rk tp io
        = .ok (.simpleHeader "X-Next-Page"))
    ∧ simpleHeaderPaginatorGetNext "X-Next-Page" [("X-Next-Page", "hdrtok")] = some "hdrtok"
    ∧ jsonPathPaginatorGetNext (some "$.next_page") (.obj []) = none
    ∧ simpleHeaderPaginatorGetNext "X-Next-Page" [] = none := by
  refine ⟨?_, ?_, rfl, ?_, rfl, rfl, rfl⟩
  · intro ntp h
    constructor <;> simp [dynamicStreamNextPageTokenJsonpath, h]
  · intro jp ps rl rk tp io
    rfl
  · intro ntp ps rl rk tp io h
    unfold get_new_paginator
    rw [h]
    rfl

theorem claim_C4_witness :
    (dynamicStreamNextPageTokenJsonpath none "default" = some "$.next_page"
      ∧ dynamicStreamNextPageTokenJsonpath none "jsonpath_paginator" = some "$.next_page")
    ∧ get_new_paginator "simple_header_paginator" none none none none none 1
      = .ok (.simpleHeader "X-Next-Page") :=
  ⟨claim_C4_default_and_header_paginators.1 none rfl,
   claim_C4_default_and_header_paginators.2.2.2.1 none none none none none 1 rfl⟩

/-- Claim C1: RestAPIOffsetPaginator.has_more returns True iff the pagination
object extracted from the response (configured jsonpath or the `pagination`
body key) contains both offset and limit (after unnesting) and
offset + limit is at most the value of the configured total field; a missing
pagination object, or one lacking offset or limit, yields False without
error. -/
theorem claim_C1_offset_paginator_has_more :
    (∀ (jp : Option String) (tp : String) (body : Json) (kvs : List (String × Json)) (o l t : Int),
      extractPagination jp body = .ok (some (.obj kvs)) →
      pyLookup (unnest_dict kvs) "offset" = some (.num o) →
      pyLookup (unnest_dict kvs) "limit" = some (.num l) →
      pyLookup (unnest_dict kvs) tp = some (.num t) →
      offsetHasMore jp tp body = .ok (decide (o + l ≤ t)))
    ∧ (∀ (jp : Option String) (tp : String) (body : Json),
      extractPagination jp body = .ok none → offsetHasMore jp tp body = .ok false)
    ∧ (∀ (jp : Option String) (tp : String) (body : Json) (kvs : List (String × Json)),
      extractPagination jp body = .ok (some (.obj kvs)) →
      (pyLookup (unnest_dict kvs) "offset" = none ∨ pyLookup (unnest_dict kvs) "limit" = none) →
      offsetHasMore jp tp body = .ok false) := by
  refine ⟨?_, ?_, ?_⟩
  · intro jp tp body kvs o l t hext ho hl ht
    have hkvs : kvs ≠ [] := by
      intro he
      rw [he] at ho
      simp [unnest_dict, unnestAux, pyLookup] at ho
    have hne : (unnest_dict kvs).isEmpty = false := by
      apply List.isEmpty_eq_false.mpr
      intro he
      rw [he] at ho
      simp [pyLookup] at ho
    have hom : (keys (unnest_dict kvs)).contains "offset" = true :=
      List.elem_iff.mpr (mem_keys_of_pyLookup _ _ _ ho)
    have hlm : (keys (unnest_dict kvs)).contains "limit" = true :=
      List.elem_iff.mpr (mem_keys_of_pyLookup _ _ _ hl)
    rw [offsetHasMore, hext]
    simp only [pyTruthy, List.isEmpty_eq_false.mpr hkvs, Bool.not_false, if_pos rfl]
    simp only [hne, hom, hlm, Bool.not_false, Bool.and_self, if_pos rfl]
    rw [ho, hl, ht]
    rfl
  · intro jp tp body hext
    rw [offsetHasMore, hext]
  · intro jp tp body kvs hext hmiss
    have hcond : (!(unnest_dict kvs).isEmpty && (keys (unnest_dict kvs)).contains "offset"
        && (keys (unnest_dict kvs)).contains "limit") = false := by
      rcases hmiss with hm | hm
      · have hnm : "offset" ∉ keys (unnest_dict kvs) := not_mem_keys_of_pyLookup_none _ _ hm
        have hc : (keys (unnest_dict kvs)).contains "offset" = false := by
          rw [Bool.eq_false_iff]
          intro hcc
          exact hnm (List.elem_iff.mp hcc)
        simp only [hc, Bool.and_false, Bool.false_and]
      · have hnm : "limit" ∉ keys (unnest_dict kvs) := not_mem_keys_of_pyLookup_none _ _ hm
        have hc : (keys (unnest_dict kvs)).contains "limit" = false := by
          rw [Bool.eq_false_iff]
          intro hcc
          exact hnm (List.elem_iff.mp hcc)
        simp only [hc, Bool.and_false]
    cases kvs with
    | nil =>
        rw [offsetHasMore, hext]
        rfl
    | cons a tl =>
        rw [offsetHasMore, hext]
        simp only [pyTruthy, List.isEmpty_cons, Bool.not_false, if_pos rfl]
        rw [hcond]
        rfl

theorem claim_C1_witness :
    offsetHasMore none "total"
      (.obj [("pagination", .obj [("offset", .num 1), ("limit", .num 1), ("total", .num 2)])])
      = .ok true
    ∧ offsetHasMore none "total"
      (.obj [("pagination", .obj [("offset", .num 5), ("limit", .num 1), ("total", .num 2)])])
      = .ok false
    ∧ offsetHasMore none "total" (.obj []) = .ok false :=
  ⟨claim_C1_offset_paginator_has_more.1 none "total" _ _ 1 1 2 rfl rfl rfl rfl,
   claim_C1_offset_paginator_has_more.1 none "total" _ _ 5 1 2 rfl rfl rfl rfl,
   claim_C1_offset_paginator_has_more.2.1 none "total" _ rfl⟩

/-- Claim C8: for a failed response the computed backoff wait is, with
backoff_type message, the largest whitespace-delimited integer token of the
body's message text plus backoff_time_extension; with backoff_type header,
the integer value of the configured backoff_param header (0 when absent)
plus backoff_time_extension; and with no backoff_type configured the SDK
default backoff generator is used unchanged. -/
theorem claim_C8_backoff_wait :
    (∀ (kvs : List (String × Json)) (s : String) (ext : Int),
      pyLookup kvs "message" = some (.str s) → digitTokenInts s ≠ [] →
      ∃ w, get_wait_time_from_response (.obj kvs) ext = .ok (w + ext)
        ∧ w ∈ digitTokenInts s ∧ ∀ x ∈ digitTokenInts s, x ≤ w)
    ∧ (∀ (headers : List (String × String)) (param : String) (ext : Int),
      pyLookup headers param = none → backoff_from_headers headers param ext = .ok ext)
    ∧ (∀ (headers : List (String × String)) (param s : String) (n ext : Int),
      pyLookup headers param = some s → pyParseInt s = some n →
      backoff_from_headers headers param ext = .ok (n + ext))
    ∧ (∀ bt : Option String, bt ≠ some "message" → bt ≠ some "header" →
      backoff_wait_generator bt = .sdkDefault)
    ∧ backoff_wait_generator (some "message") = .runtimeMessage
    ∧ backoff_wait_generator (some "header") = .runtimeHeader := by
  refine ⟨?_, ?_, ?_, ?_, rfl, rfl⟩
  · intro kvs s ext hm hne
    cases hd : digitTokenInts s with
    | nil => exact absurd hd hne
    | cons h t =>
        refine ⟨t.foldl max h, ?_, ?_, ?_⟩
        · simp only [get_wait_time_from_response, hm, Option.getD_some, hd]
        · exact foldl_max_mem t h
        · intro x hx
          exact foldl_max_le t h x hx
  · intro headers param ext hn
    rw [backoff_from_headers, hn]
    simp
  · intro headers param s n ext hs hp
    simp only [backoff_from_headers, hs, hp]
  · intro bt h1 h2
    simp [backoff_wait_generator, h1, h2]

theorem claim_C8_witness :
    (∃ w, get_wait_time_from_response
        (.obj [("message", .str "Rate limit hit, wait 30 or 120 seconds")]) 5 = .ok (w + 5)
      ∧ w ∈ digitTokenInts "Rate limit hit, wait 30 or 120 seconds"
      ∧ ∀ x ∈ digitTokenInts "Rate limit hit, wait 30 or 120 seconds", x ≤ w)
    ∧ backoff_from_headers [] "Retry-After" 2 = .ok 2
    ∧ backoff_from_headers [("Retry-After", "30")] "Retry-After" 2 = .ok 32
    ∧ backoff_wait_generator none = .sdkDefault :=
  ⟨claim_C8_backoff_wait.1 _ _ 5 rfl (by decide),
   claim_C8_backoff_wait.2.1 [] "Retry-After" 2 rfl,
   claim_C8_backoff_wait.2.2.1 [("Retry-After", "30")] "Retry-After" "30" 30 2 rfl rfl,
   claim_C8_backoff_wait.2.2.2.1 none (by simp) (by simp)⟩

/-- Claim C2 counterexample: in the record with nested leaf a.b = [1] and
top-level key a_b = 2, the array is first serialized under the translated
key a_b, but the later leaf assigns the same flattened key; the final record
maps a_b to 2 and the serialized array value "[1]" does not appear in the
output at all. -/
theorem claim_C2_counterexample :
    pyLookup (flatten_json (.obj [("a", .obj [("b", .arr [.num 1])]), ("a_b", .num 2)]) [] false)
      "a_b" = some (.num 2)
    ∧ keys (flatten_json (.obj [("a", .obj [("b", .arr [.num 1])]), ("a_b", .num 2)]) [] false)
      = ["a_b"]
    ∧ dumps (.arr [.num 1]) = "[1]"
    ∧ Json.num 2 ≠ Json.str "[1]" :=
  ⟨rfl, rfl, rfl, fun h => Json.noConfusion h⟩

/-- Claim C2 (amended): every array reachable through object keys only (not
inside another array) whose path does not meet except_keys is assigned, as a
JSON-serialized string, to the translated flattened key of its parent path;
that serialized string is the final value of the flat record at that key
whenever no other traversal assignment collides on the same translated key
(the output is always a single flat record by construction). -/
theorem claim_C2_arrays_serialized :
    (∀ (ek : List String) (xs : List Json) (p : List String) (o : Json), p ≠ [] →
      getObjPath o p = some (.arr xs) → noExceptOnPath ek "" p = true →
      (pyT (pathName p), Json.str (dumps (.arr xs))) ∈ flattenAssigns o ek "")
    ∧ (∀ (ek : List String) (xs : List Json) (p : List String) (o : Json), p ≠ [] →
      getObjPath o p = some (.arr xs) → noExceptOnPath ek "" p = true →
      (keyAssigns (flattenAssigns o ek "") (pyT (pathName p))).length = 1 →
      pyLookup (flatten_json o ek false) (pyT (pathName p)) = some (.str (dumps (.arr xs)))) := by
  have hmem : ∀ (ek : List String) (xs : List Json) (p : List String) (o : Json), p ≠ [] →
      getObjPath o p = some (.arr xs) → noExceptOnPath ek "" p = true →
      (pyT (pathName p), Json.str (dumps (.arr xs))) ∈ flattenAssigns o ek "" := by
    intro ek xs p o hp hpath hex
    have h := flattenAssigns_array_mem ek xs p o "" hp hpath hex
    rwa [string_nil_append] at h
  refine ⟨hmem, ?_⟩
  intro ek xs p o hp hpath hex hcount
  show pyLookup (buildDict (flattenAssigns o ek "")) (pyT (pathName p)) = _
  exact lookup_buildDict_of_unique _ _ _ (hmem ek xs p o hp hpath hex) hcount

theorem claim_C2_witness :
    (pyT (pathName ["a", "b"]), Json.str (dumps (.arr [.num 1])))
      ∈ flattenAssigns (.obj [("a", .obj [("b", .arr [.num 1])]), ("d", .num 2)]) [] ""
    ∧ pyLookup (flatten_json (.obj [("a", .obj [("b", .arr [.num 1])]), ("d", .num 2)]) [] false)
        (pyT (pathName ["a", "b"])) = some (.str (dumps (.arr [.num 1]))) :=
  ⟨claim_C2_arrays_serialized.1 [] [.num 1] ["a", "b"]
      (.obj [("a", .obj [("b", .arr [.num 1])]), ("d", .num 2)]) (by simp) rfl rfl,
   claim_C2_arrays_serialized.2 [] [.num 1] ["a", "b"]
      (.obj [("a", .obj [("b", .arr [.num 1])]), ("d", .num 2)]) (by simp) rfl rfl rfl⟩

set_option maxHeartbeats 1000000 in
theorem mem_keys_oauth_params_dict (c : AuthConfig) (gt k : String) :
    k ∈ keys (oauth_params_dict c gt) ↔
      k = "grant_type"
      ∨ (truthyOS c.scope = true ∧ k = "scope")
      ∨ (truthyOS c.client_id = true ∧ k = "client_id")
      ∨ (truthyOS c.client_secret = true ∧ k = "client_secret")
      ∨ (truthyOS c.username = true ∧ k = "username")
      ∨ (truthyOS c.password = true ∧ k = "password")
      ∨ (truthyOS c.refresh_token = true ∧ k = "refresh_token")
      ∨ (truthyOS c.redirect_uri = true ∧ k = "redirect_uri")
      ∨ (truthyOL c.oauth_extras = true ∧ ∃ v, (k, v) ∈ c.oauth_extras.getD []) := by
  have hbase : keys (pyIns ([] : List (String × String)) "grant_type" gt) = ["grant_type"] := rfl
  by_cases he : truthyOL c.oauth_extras = true
  · simp only [oauth_params_dict]
    rw [if_pos he, mem_keys_dictUpdate]
    simp only [mem_keys_addParamIf, hbase, List.mem_singleton, he, true_and]
    constructor
    · rintro ((h | h | h | h | h | h | h | h) | h)
      · exact Or.inr (Or.inr (Or.inr (Or.inr (Or.inr (Or.inr (Or.inr (Or.inl h)))))))
      · exact Or.inr (Or.inr (Or.inr (Or.inr (Or.inr (Or.inr (Or.inl h))))))
      · exact Or.inr (Or.inr (Or.inr (Or.inr (Or.inr (Or.inl h)))))
      · exact Or.inr (Or.inr (Or.inr (Or.inr (Or.inl h))))
      · exact Or.inr (Or.inr (Or.inr (Or.inl h)))
      · exact Or.inr (Or.inr (Or.inl h))
      · exact Or.inr (Or.inl h)
      · exact Or.inl h
      · exact Or.inr (Or.inr (Or.inr (Or.inr (Or.inr (Or.inr (Or.inr (Or.inr h)))))))
    · rintro (h | h | h | h | h | h | h | h | h)
      · exact Or.inl (Or.inr (Or.inr (Or.inr (Or.inr (Or.inr (Or.inr (Or.inr h)))))))
      · exact Or.inl (Or.inr (Or.inr (Or.inr (Or.inr (Or.inr (Or.inr (Or.inl h)))))))
      · exact Or.inl (Or.inr (Or.inr (Or.inr (Or.inr (Or.inr (Or.inl h))))))
      · exact Or.inl (Or.inr (Or.inr (Or.inr (Or.inr (Or.inl h)))))
      · exact Or.inl (Or.inr (Or.inr (Or.inr (Or.inl h))))
      · exact Or.inl (Or.inr (Or.inr (Or.inl h)))
      · exact Or.inl (Or.inr (Or.inl h))
      · exact Or.inl (Or.inl h)
      · exact Or.inr h
  · simp only [oauth_params_dict]
    rw [if_neg he]
    have heq : truthyOL c.oauth_extras = false := Bool.eq_false_iff.mpr he
    simp only [mem_keys_addParamIf, hbase, List.mem_singleton, heq, Bool.false_eq_true,
      false_and, or_false]
    constructor
    · rintro (h | h | h | h | h | h | h | h)
      · exact Or.inr (Or.inr (Or.inr (Or.inr (Or.inr (Or.inr (Or.inr h))))))
      · exact Or.inr (Or.inr (Or.inr (Or.inr (Or.inr (Or.inr (Or.inl h))))))
      · exact Or.inr (Or.inr (Or.inr (Or.inr (Or.inr (Or.inl h)))))
      · exact Or.inr (Or.inr (Or.inr (Or.inr (Or.inl h))))
      · exact Or.inr (Or.inr (Or.inr (Or.inl h)))
      · exact Or.inr (Or.inr (Or.inl h))
      · exact Or.inr (Or.inl h)
      · exact Or.inl h
    · rintro (h | h | h | h | h | h | h | h)
      · exact Or.inr (Or.inr (Or.inr (Or.inr (Or.inr (Or.inr (Or.inr h))))))
      · exact Or.inr (Or.inr (Or.inr (Or.inr (Or.inr (Or.inr (Or.inl h))))))
      · exact Or.inr (Or.inr (Or.inr (Or.inr (Or.inr (Or.inl h)))))
      · exact Or.inr (Or.inr (Or.inr (Or.inr (Or.inl h))))
      · exact Or.inr (Or.inr (Or.inr (Or.inl h)))
      · exact Or.inr (Or.inr (Or.inl h))
      · exact Or.inr (Or.inl h)
      · exact Or.inl h

/-- Claim C6: oauth_request_body raises ValueError exactly when grant_type is
absent, or client_credentials lacks client_id or client_secret, or password
lacks username or password, or refresh_token lacks refresh_token; otherwise
the returned parameter mapping contains grant_type plus each optional field
exactly when it is present in the configuration, including every
oauth_extras entry. (Fields are assumed non-empty when present, matching
Python truthiness.) -/
theorem claim_C6_oauth_request_body (c : AuthConfig)
    (hgt : ∀ s, c.grant_type = some s → s ≠ "")
    (hci : ∀ s, c.client_id = some s → s ≠ "")
    (hcs : ∀ s, c.client_secret = some s → s ≠ "")
    (hun : ∀ s, c.username = some s → s ≠ "")
    (hpw : ∀ s, c.password = some s → s ≠ "")
    (hrt : ∀ s, c.refresh_token = some s → s ≠ "")
    (hsc : ∀ s, c.scope = some s → s ≠ "")
    (hru : ∀ s, c.redirect_uri = some s → s ≠ "")
    (hoe : ∀ l, c.oauth_extras = some l → l ≠ []) :
    ((∃ e, oauth_request_body c = .error e) ↔
      (c.grant_type = none
        ∨ ∃ gt, c.grant_type = some gt ∧
          ((gt = "client_credentials" ∧ (c.client_id = none ∨ c.client_secret = none))
            ∨ (gt = "password" ∧ (c.username = none ∨ c.password = none))
            ∨ (gt = "refresh_token" ∧ c.refresh_token = none))))
    ∧ (∀ params, oauth_request_body c = .ok params → ∀ k,
        (k ∈ keys params ↔
          k = "grant_type"
          ∨ (c.scope ≠ none ∧ k = "scope")
          ∨ (c.client_id ≠ none ∧ k = "client_id")
          ∨ (c.client_secret ≠ none ∧ k = "client_secret")
          ∨ (c.username ≠ none ∧ k = "username")
          ∨ (c.password ≠ none ∧ k = "password")
          ∨ (c.refresh_token ≠ none ∧ k = "refresh_token")
          ∨ (c.redirect_uri ≠ none ∧ k = "redirect_uri")
          ∨ (∃ l, c.oauth_extras = some l ∧ ∃ v, (k, v) ∈ l))) := by
  have Tsc := truthyOS_eq_isSome c.scope hsc
  have Tci := truthyOS_eq_isSome c.client_id hci
  have Tcs := truthyOS_eq_isSome c.client_secret hcs
  have Tun := truthyOS_eq_isSome c.username hun
  have Tpw := truthyOS_eq_isSome c.password hpw
  have Trt := truthyOS_eq_isSome c.refresh_token hrt
  have Tru := truthyOS_eq_isSome c.redirect_uri hru
  cases hg : c.grant_type with
  | none =>
      have hbody : oauth_request_body c
          = .error (.valueError "Missing grant type for OAuth Token.") := by
        simp [oauth_request_body, hg, truthyOS]
      refine ⟨⟨fun _ => Or.inl rfl, fun _ => ⟨_, hbody⟩⟩, ?_⟩
      intro params hp
      rw [hbody] at hp
      exact absurd hp (by simp)
  | some gt =>
      have hne : gt ≠ "" := hgt gt hg
      have miss1 : (truthyOS c.client_id = false ∨ truthyOS c.client_secret = false)
          ↔ (c.client_id = none ∨ c.client_secret = none) := by
        rw [Tci, Tcs]
        constructor
        · rintro (h | h)
          · exact Or.inl (Option.not_isSome_iff_eq_none.mp (by simp [h]))
          · exact Or.inr (Option.not_isSome_iff_eq_none.mp (by simp [h]))
        · rintro (h | h) <;> simp [h]
      have miss2 : (truthyOS c.username = false ∨ truthyOS c.password = false)
          ↔ (c.username = none ∨ c.password = none) := by
        rw [Tun, Tpw]
        constructor
        · rintro (h | h)
          · exact Or.inl (Option.not_isSome_iff_eq_none.mp (by simp [h]))
          · exact Or.inr (Option.not_isSome_iff_eq_none.mp (by simp [h]))
        · rintro (h | h) <;> simp [h]
      have miss3 : truthyOS c.refresh_token = false ↔ c.refresh_token = none := by
        rw [Trt]
        constructor
        · intro h
          exact Option.not_isSome_iff_eq_none.mp (by simp [h])
        · intro h
          simp [h]
      have Tg2 : truthyOS (some gt) = true := by simp [truthyOS, hne]
      by_cases hb1 : gt = "client_credentials"
          ∧ (truthyOS c.client_id = false ∨ truthyOS c.client_secret = false)
      · have hbody : oauth_request_body c = .error (.valueError
            ("Missing either client_id or client_secret for " ++
              "'client_credentials' grant_type.")) := by
          have TgA : truthyOS (some "client_credentials") = true := by decide
          simp [oauth_request_body, hg, Tg2, TgA, hb1]
        refine ⟨⟨fun _ => Or.inr ⟨gt, rfl, Or.inl ⟨hb1.1, miss1.mp hb1.2⟩⟩,
          fun _ => ⟨_, hbody⟩⟩, ?_⟩
        intro params hp
        rw [hbody] at hp
        exact absurd hp (by simp)
      · by_cases hb2 : gt = "password"
            ∧ (truthyOS c.username = false ∨ truthyOS c.password = false)
        · have hbody : oauth_request_body c = .error (.valueError
              "Missing either username or password for 'password' grant_type.") := by
            have TgB : truthyOS (some "password") = true := by decide
            simp [oauth_request_body, hg, Tg2, TgB, hb1, hb2]
          refine ⟨⟨fun _ => Or.inr ⟨gt, rfl, Or.inr (Or.inl ⟨hb2.1, miss2.mp hb2.2⟩)⟩,
            fun _ => ⟨_, hbody⟩⟩, ?_⟩
          intro params hp
          rw [hbody] at hp
          exact absurd hp (by simp)
        · by_cases hb3 : gt = "refresh_token" ∧ truthyOS c.refresh_token = false
          · have hbody : oauth_request_body c = .error (.valueError
                "Missing either refresh_token for 'refresh_token' grant_type.") := by
              have TgC : truthyOS (some "refresh_token") = true := by decide
              simp [oauth_request_body, hg, Tg2, TgC, hb1, hb2, hb3]
            refine ⟨⟨fun _ => Or.inr ⟨gt, rfl, Or.inr (Or.inr ⟨hb3.1, miss3.mp hb3.2⟩)⟩,
              fun _ => ⟨_, hbody⟩⟩, ?_⟩
            intro params hp
            rw [hbody] at hp
            exact absurd hp (by simp)
          · have hbody : oauth_request_body c = .ok (oauth_params_dict c gt) := by
              simp [oauth_request_body, hg, Tg2, hb1, hb2, hb3]
            constructor
            · constructor
              · rintro ⟨e, he⟩
                rw [hbody] at he
                exact absurd he (by simp)
              · rintro (hnone | ⟨gt', heq, hcases⟩)
                · exact absurd hnone (by simp)
                · exfalso
                  have hgg : gt' = gt := (Option.some.inj heq).symm
                  subst hgg
                  rcases hcases with ⟨hgtc, hm⟩ | ⟨hgtc, hm⟩ | ⟨hgtc, hm⟩
                  · exact hb1 ⟨hgtc, miss1.mpr hm⟩
                  · exact hb2 ⟨hgtc, miss2.mpr hm⟩
                  · exact hb3 ⟨hgtc, miss3.mpr hm⟩
            · intro params hp
              rw [hbody] at hp
              have hpe : params = oauth_params_dict c gt := (Except.ok.inj hp).symm
              subst hpe
              intro k
              rw [mem_keys_oauth_params_dict]
              simp only [Tsc, Tci, Tcs, Tun, Tpw, Trt, Tru, Option.isSome_iff_ne_none]
              cases hext : c.oauth_extras with
              | none => simp [truthyOL]
              | some l => simp [truthyOL, List.isEmpty_eq_false.mpr (hoe l hext)]

theorem claim_C6_witness :
    oauth_request_body
      { grant_type := some "client_credentials", client_id := some "ident",
        client_secret := some "sec", oauth_extras := some [("resource", "res")] }
      = .ok [("grant_type", "client_credentials"), ("client_id", "ident"),
        ("client_secret", "sec"), ("resource", "res")]
    ∧ "grant_type" ∈ keys [("grant_type", "client_credentials"), ("client_id", "ident"),
        ("client_secret", "sec"), ("resource", "res")]
    ∧ "resource" ∈ keys [("grant_type", "client_credentials"), ("client_id", "ident"),
        ("client_secret", "sec"), ("resource", "res")] := by
  have h := claim_C6_oauth_request_body
    { grant_type := some "client_credentials", client_id := some "ident",
      client_secret := some "sec", oauth_extras := some [("resource", "res")] }
    (by intro s hs; injection hs with h2; subst h2; decide)
    (by intro s hs; injection hs with h2; subst h2; decide)
    (by intro s hs; injection hs with h2; subst h2; decide)
    (by intro s hs; exact Option.noConfusion hs)
    (by intro s hs; exact Option.noConfusion hs)
    (by intro s hs; exact Option.noConfusion hs)
    (by intro s hs; exact Option.noConfusion hs)
    (by intro s hs; exact Option.noConfusion hs)
    (by intro l hl; injection hl with h2; subst h2; simp)
  refine ⟨rfl, ?_, ?_⟩
  · exact (h.2 _ rfl "grant_type").mpr (Or.inl rfl)
  · exact (h.2 _ rfl "resource").mpr (Or.inr (Or.inr (Or.inr (Or.inr (Or.inr (Or.inr
      (Or.inr (Or.inr ⟨[("resource", "res")], rfl, "res", by simp⟩))))))))
